import Mathlib

/-!
Shallow embedding of the POD Art Shop backend (src/main.py, src/schemas.py).

Python floats are modelled as rationals; Python dict values that the code
inspects for truthiness are modelled by an explicit `PyVal` type with a
truthiness predicate.  The document store (database.py, not under src/) is
modelled as an in-memory list per collection: `find_one` returns the first
match, `update_one` with a full-field `$set` replaces the first match, and
`create_document` appends.
-/

/-- A primitive Python value as it appears in id-like fields: a string, an
integer, or `None`. -/
inductive PyVal where
  | str (s : String)
  | int (n : ℤ)
  | null
deriving DecidableEq, Repr

/-- Python truthiness of a `PyVal`: `""`, `0` and `None` are falsy. -/
def pyTruthy : PyVal → Bool
  | .str s => !s.isEmpty
  | .int n => n != 0
  | .null => false

/-- Python `a or b` where `a`, `b` are results of `dict.get` (absent key gives
`None`, modelled as `none`). -/
def pyOrVal (a b : Option PyVal) : Option PyVal :=
  match a with
  | some v => if pyTruthy v then some v else b
  | none => b

/-- Python `a or b` on optional strings (`""` is falsy). -/
def pyOrStr (a b : Option String) : Option String :=
  match a with
  | some s => if s.isEmpty then b else some s
  | none => b

/-- Python `a or b` on optional ints (`0` is falsy). -/
def pyOrInt (a b : Option ℤ) : Option ℤ :=
  match a with
  | some n => if n = 0 then b else some n
  | none => b

/-- Python `a or b` on optional lists (`[]` is falsy). -/
def pyOrList {α : Type} (a b : Option (List α)) : Option (List α) :=
  match a with
  | some l => if l.isEmpty then b else some l
  | none => b

/-- Truncation toward zero, Python `int(...)` on a number. -/
def intTrunc (q : ℚ) : ℤ :=
  if q < 0 then -((-q).num.ediv ((-q).den : ℤ)) else q.num.ediv (q.den : ℤ)

/-- Round-half-to-even to an integer, Python `round(x)`. -/
def roundHalfEven (q : ℚ) : ℤ :=
  let f : ℤ := q.num.ediv (q.den : ℤ)
  let r : ℚ := q - (f : ℚ)
  if r < 1/2 then f
  else if 1/2 < r then f + 1
  else if f % 2 = 0 then f else f + 1

/-- Python `round(x, 2)` on the rational model of floats. -/
def pyRound2 (q : ℚ) : ℚ := (roundHalfEven (q * 100) : ℚ) / 100

/-- Raw image entry of an upstream product record (`images`/`files` element). -/
structure RawImage where
  src : Option String := none
  preview_url : Option String := none
  url : Option String := none
deriving DecidableEq, Repr

/-- Raw variant of an upstream product record.  `is_default` models the
truthiness of `v.get("is_default")`; `price` is `some q` exactly when
`v.get("price")` is numeric (`isinstance(v.get("price"), (int, float))`). -/
structure RawVariant where
  is_default : Bool := false
  id : Option ℤ := none
  variant_id : Option ℤ := none
  price : Option ℚ := none
deriving DecidableEq, Repr

/-- Raw upstream product record, with the fields `sync_printify_products`
reads.  `none` models an absent key (or a `None` value, indistinguishable
through `dict.get`). -/
structure RawProduct where
  id : Option PyVal := none
  _id : Option PyVal := none
  title : Option String := none
  name : Option String := none
  description : Option String := none
  images : Option (List RawImage) := none
  files : Option (List RawImage) := none
  tags : Option (List String) := none
  categories : Option (List String) := none
  variants : Option (List RawVariant) := none
  visible : Option Bool := none
deriving DecidableEq, Repr

/-- The stored `StoreProduct` document built by sync (main.py lines 118-130). -/
structure StoreDoc where
  id : PyVal
  title : String
  description : Option String
  images : List String
  tags : List String
  categories : List String
  variants : List RawVariant
  default_variant_id : Option ℤ
  price : ℚ
  currency : String
  available : Bool
deriving DecidableEq, Repr

/-- `product_id = p.get("id") or p.get("_id"); if not product_id: continue` —
the resolved id, `none` when the record is skipped. -/
def resolveId (p : RawProduct) : Option PyVal :=
  match pyOrVal p.id p._id with
  | some v => if pyTruthy v then some v else none
  | none => none

/-- `url = im.get("src") or im.get("preview_url") or im.get("url");
if url: images.append(url)` — the collected url of one preview entry. -/
def imageUrl (im : RawImage) : Option String :=
  match pyOrStr (pyOrStr im.src im.preview_url) im.url with
  | some s => if s.isEmpty then none else some s
  | none => none

/-- `if v.get("price") and v.get("price") > 10 : price/100 else price` —
the normalized contribution of one numeric variant price. -/
def normContribution (q : ℚ) : ℚ :=
  if q ≠ 0 ∧ 10 < q then q / 100 else q

/-- One iteration of the variant loop (main.py lines 113-117), updating the
`(default_variant_id, price)` accumulator. -/
def variantStep (st : Option ℤ × ℚ) (v : RawVariant) : Option ℤ × ℚ :=
  let dv := if v.is_default then pyOrInt v.id v.variant_id else st.1
  let pr := match v.price with
    | some q => max st.2 (normContribution q)
    | none => st.2
  (dv, pr)

/-- The price accumulated over the variant loop before rounding, including
the final `price or 0` (main.py line 127). -/
def preRoundPrice (vs : List RawVariant) : ℚ :=
  let pr := (vs.foldl variantStep (none, 0)).2
  if pr ≠ 0 then pr else 0

/-- The body of the sync loop for one raw record: `none` when the record is
skipped for lack of a truthy id, else the document that is upserted
(main.py lines 95-130). -/
def normalizeRecord (p : RawProduct) : Option StoreDoc :=
  match resolveId p with
  | none => none
  | some pid =>
    let title := match pyOrStr p.title p.name with
      | some s => if s.isEmpty then "Untitled" else s
      | none => "Untitled"
    let previews := match pyOrList p.images p.files with
      | some l => l
      | none => []
    let images := previews.filterMap imageUrl
    let variants := match pyOrList p.variants none with
      | some l => l
      | none => []
    let st := variants.foldl variantStep (none, 0)
    some {
      id := pid
      title := title
      description := p.description
      images := images.take 8
      tags := (pyOrList p.tags none).getD []
      categories := (pyOrList p.categories none).getD []
      variants := variants
      default_variant_id := st.1
      price := pyRound2 (preRoundPrice variants)
      currency := "USD"
      available := p.visible.getD true }

/-- `find_one({"id": product_id})` then `update_one`/`create_document`
(main.py lines 131-136): replace the first document with the same id, else
append. -/
def upsert (store : List StoreDoc) (d : StoreDoc) : List StoreDoc :=
  match store with
  | [] => [d]
  | e :: rest => if e.id = d.id then d :: rest else e :: upsert rest d

/-- Accumulator of `sync_printify_products`: the `synced` counter, the
`saved_docs` list and the evolving `storeproduct` collection. -/
structure SyncResult where
  synced : ℕ
  products : List StoreDoc
  store : List StoreDoc
deriving DecidableEq, Repr

/-- One iteration of the sync loop over raw records (main.py lines 95-138). -/
def syncStep (acc : SyncResult) (p : RawProduct) : SyncResult :=
  match normalizeRecord p with
  | none => acc
  | some doc =>
    { synced := acc.synced + 1
      products := acc.products ++ [doc]
      store := upsert acc.store doc }

/-- `sync_printify_products` applied to an already-fetched upstream product
list and an initial `storeproduct` collection (main.py lines 90-139). -/
def sync_printify_products (store : List StoreDoc) (ps : List RawProduct) :
    SyncResult :=
  ps.foldl syncStep ⟨0, [], store⟩

/-- The store evolution of sync alone. -/
def syncStore (store : List StoreDoc) (ps : List RawProduct) : List StoreDoc :=
  (sync_printify_products store ps).store

/-- The product ids stored in a `storeproduct` collection. -/
def storeKeys (store : List StoreDoc) : List PyVal := store.map (·.id)

/-- Case-insensitive substring test, modelling the catalog's
`{"$regex": q, "$options": "i"}` title filter on the plain-text queries the
endpoint is used with. -/
def ciContains (hay needle : String) : Bool :=
  decide (needle.toLower.toList <:+: hay.toLower.toList)

/-- The Mongo filter built by `get_catalog` (main.py lines 144-148):
`available = true` always, plus the optional category and title clauses. -/
structure CatalogFilter where
  category : Option String
  titleQuery : Option String
deriving DecidableEq, Repr

/-- `filt = {"available": True}; if category: ...; if q: ...` — note Python
truthiness: an empty-string argument adds no clause. -/
def buildCatalogFilter (category q : Option String) : CatalogFilter :=
  { category := match category with
      | some c => if c.isEmpty then none else some c
      | none => none
    titleQuery := match q with
      | some s => if s.isEmpty then none else some s
      | none => none }

/-- Whether a stored document matches the catalog filter. -/
def matchesFilter (f : CatalogFilter) (d : StoreDoc) : Bool :=
  d.available
    && (match f.category with
        | some c => d.categories.contains c
        | none => true)
    && (match f.titleQuery with
        | some s => ciContains d.title s
        | none => true)

/-- Modelled from the spec: `get_documents` lives in database.py, which is not
under src/; per the catalog-query contract it returns the stored documents
matching the filter, capped at `limit`, in store-native order. -/
def get_documents (store : List StoreDoc) (f : CatalogFilter) (limit : ℕ) :
    List StoreDoc :=
  (store.filter (matchesFilter f)).take limit

/-- `get_catalog` (main.py lines 142-150) over a given stored collection. -/
def get_catalog (store : List StoreDoc) (category q : Option String) :
    List StoreDoc :=
  get_documents store (buildCatalogFilter category q) 100

/-- One requested checkout item (`CheckoutItem` pydantic model). -/
structure CheckoutItem where
  product_id : String
  variant_id : Option ℤ := none
  quantity : ℤ := 1
  unit_amount : Option ℚ := none
deriving DecidableEq, Repr

/-- The checkout request body (`CheckoutSessionIn` pydantic model). -/
structure CheckoutSessionIn where
  user_id : Option String := none
  items : List CheckoutItem
  currency : String := "usd"
deriving DecidableEq, Repr

/-- An `HTTPException(status_code, detail)`. -/
structure HttpError where
  status : ℕ
  detail : String
deriving DecidableEq, Repr

/-- One Stripe line item built by `create_checkout_session`
(main.py lines 202-212). -/
structure StripeLineItem where
  name : String
  images : List String
  currency : String
  unit_amount : ℤ
  quantity : ℤ
deriving DecidableEq, Repr

/-- The persisted `Order` document (main.py lines 221-228, schemas.Order). -/
structure OrderDoc where
  user_id : Option String
  items : List CheckoutItem
  amount_total : ℚ
  currency : String
  status : String
  stripe_session_id : Option String
  printify_order_id : Option String := none
deriving DecidableEq, Repr

/-- `db["storeproduct"].find_one({"id": pid})` where `pid` comes from a
checkout item's string `product_id`: first stored document with that id. -/
def lookupProduct (store : List StoreDoc) (pid : String) : Option StoreDoc :=
  store.find? (fun d => decide (d.id = PyVal.str pid))

/-- The item loop of `create_checkout_session` (main.py lines 194-212):
raises 404 at the first unknown product, else accumulates the Stripe line
items and the pre-rounding `amount_total`.  `float(it.unit_amount or
sp.get("price", 0))` lets a falsy (absent or zero) override fall back to the
stored price. -/
def checkoutLoop (store : List StoreDoc) (currency : String) :
    List CheckoutItem → Except HttpError (List StripeLineItem × ℚ)
  | [] => .ok ([], 0)
  | it :: rest =>
    match lookupProduct store it.product_id with
    | none => .error ⟨404, "Product " ++ it.product_id ++ " not found"⟩
    | some sp =>
      let price : ℚ := match it.unit_amount with
        | some u => if u = 0 then sp.price else u
        | none => sp.price
      match checkoutLoop store currency rest with
      | .error e => .error e
      | .ok (lis, tot) =>
        .ok ({ name := sp.title
               images := sp.images.take 1
               currency := currency
               unit_amount := intTrunc (price * 100)
               quantity := it.quantity } :: lis,
             price * (it.quantity : ℚ) + tot)

/-- The successful result of `create_checkout_session`: the Stripe call's
line items, the persisted order, and the `{"id", "url"}` response. -/
structure CheckoutResult where
  line_items : List StripeLineItem
  order : OrderDoc
  id : String
  url : String
deriving DecidableEq, Repr

/-- `create_checkout_session` (main.py lines 186-231).  The Stripe session is
external input, so its id and url are parameters; `stripeConfigured` models
`STRIPE_API_KEY` being set. -/
def create_checkout_session (stripeConfigured : Bool) (store : List StoreDoc)
    (payload : CheckoutSessionIn) (sessionId sessionUrl : String) :
    Except HttpError CheckoutResult :=
  if !stripeConfigured then .error ⟨500, "Stripe not configured"⟩
  else
    match checkoutLoop store payload.currency payload.items with
    | .error e => .error e
    | .ok (lis, tot) =>
      .ok { line_items := lis
            order := { user_id := payload.user_id
                       items := payload.items
                       amount_total := pyRound2 tot
                       currency := payload.currency.toUpper
                       status := "created"
                       stripe_session_id := some sessionId
                       printify_order_id := none }
            id := sessionId
            url := sessionUrl }

/-- The effect of the checkout endpoint on the `order` collection:
`create_document("order", order_doc)` appends on success; an exception
persists nothing. -/
def ordersAfterCheckout (orders : List OrderDoc)
    (r : Except HttpError CheckoutResult) : List OrderDoc :=
  match r with
  | .ok res => orders ++ [res.order]
  | .error _ => orders

/-- The inbound Stripe webhook body (`StripeWebhook` pydantic model);
`dataObjectId` models `event.data.get("object", {}).get("id")`. -/
structure StripeEvent where
  id : String
  type : String
  dataObjectId : Option String
deriving DecidableEq, Repr

/-- The webhook endpoint's response body. -/
structure WebhookResponse where
  received : Bool
deriving DecidableEq, Repr

/-- One Printify line item built by `_create_printify_order_from_order`
(main.py lines 263-269). -/
structure PrintifyLineItem where
  product_id : String
  variant_id : Option ℤ
  quantity : ℤ
deriving DecidableEq, Repr

/-- The line-item loop of `_create_printify_order_from_order`: a falsy
`variant_id` falls back to the product's `default_variant_id`, and the
chained `.get` on a missing product (`find_one` returning `None`) raises. -/
def buildPrintifyLineItems (store : List StoreDoc) :
    List CheckoutItem → Except Unit (List PrintifyLineItem)
  | [] => .ok []
  | it :: rest =>
    let vid : Except Unit (Option ℤ) :=
      match it.variant_id with
      | some v =>
        if v = 0 then
          match lookupProduct store it.product_id with
          | some sp => .ok sp.default_variant_id
          | none => .error ()
        else .ok (some v)
      | none =>
        match lookupProduct store it.product_id with
        | some sp => .ok sp.default_variant_id
        | none => .error ()
    match vid with
    | .error e => .error e
    | .ok v =>
      match buildPrintifyLineItems store rest with
      | .error e => .error e
      | .ok lis => .ok ({ product_id := it.product_id
                          variant_id := v
                          quantity := it.quantity } :: lis)

/-- `_create_printify_order_from_order` (main.py lines 259-283).  The HTTP
call to Printify is external input, modelled by its `(status, response id)`;
`shopIdSet` models `PRINTIFY_SHOP_ID` being set.  `.error ()` stands for any
raised exception; the success value is `resp.get("id")`. -/
def create_printify_order_from_order (shopIdSet : Bool)
    (store : List StoreDoc) (httpResp : ℕ × Option String)
    (order : OrderDoc) : Except Unit (Option String) :=
  if !shopIdSet then .error ()
  else
    match buildPrintifyLineItems store order.items with
    | .error _ => .error ()
    | .ok _ =>
      if httpResp.1 = 200 ∨ httpResp.1 = 201 then .ok httpResp.2
      else .error ()

/-- Replace the first order matching `pred` by its image under `f`
(`update_one` keyed by the `_id` of the order `find_one` returned). -/
def updateFirst (pred : OrderDoc → Bool) (f : OrderDoc → OrderDoc) :
    List OrderDoc → List OrderDoc
  | [] => []
  | o :: rest => if pred o then f o :: rest else o :: updateFirst pred f rest

/-- Whether an order matches the webhook's session id. -/
def sessionPred (sid : Option String) (o : OrderDoc) : Bool :=
  decide (o.stripe_session_id = sid)

/-- `stripe_webhook` (main.py lines 242-256) over a given `order` collection.
On the handled event type it looks the order up by session id; on placement
success the order gets `printify_order_id` (set inside the placement call)
and status `paid`, on any placement exception it gets status `failed`; the
endpoint always answers `{"received": True}`. -/
def stripe_webhook (shopIdSet : Bool) (store : List StoreDoc)
    (httpResp : ℕ × Option String) (orders : List OrderDoc)
    (event : StripeEvent) : List OrderDoc × WebhookResponse :=
  if event.type = "checkout.session.completed" then
    let pred := sessionPred event.dataObjectId
    match orders.find? pred with
    | some o =>
      match create_printify_order_from_order shopIdSet store httpResp o with
      | .ok pid =>
        (updateFirst pred
          (fun o => { o with printify_order_id := pid, status := "paid" })
          orders, ⟨true⟩)
      | .error _ =>
        (updateFirst pred (fun o => { o with status := "failed" }) orders,
         ⟨true⟩)
    | none => (orders, ⟨true⟩)
  else (orders, ⟨true⟩)

/-- The price branch of the variant loop alone. -/
def priceStep (acc : ℚ) (v : RawVariant) : ℚ :=
  match v.price with
  | some q => max acc (normContribution q)
  | none => acc

/-- Spec-side formula: maximum normalized numeric price over all variants
(`v/100` when `v > 10`, else `v`), accumulated from 0, rounded to 2 decimals. -/
def specPriceAllVariants (vs : List RawVariant) : ℚ :=
  pyRound2 (vs.foldl
    (fun acc v => match v.price with
      | some q => max acc (if 10 < q then q / 100 else q)
      | none => acc) 0)

/-- Spec-side formula following claim C4's words: the maximum is taken over
the default-marked variants only whenever at least one variant is marked
default, else over all variants. -/
def specPriceDefaultOnly (vs : List RawVariant) : ℚ :=
  let pool := if vs.any (·.is_default) then vs.filter (·.is_default) else vs
  pyRound2 (pool.foldl
    (fun acc v => match v.price with
      | some q => max acc (if 10 < q then q / 100 else q)
      | none => acc) 0)

/-- `find_one({"id": k})` on the `storeproduct` collection: the first stored
document whose `id` equals `k`. -/
def lookupById : List StoreDoc → PyVal → Option StoreDoc
  | [], _ => none
  | e :: rest, k => if e.id = k then some e else lookupById rest k

/-- The stored product's price for an item's `product_id` (0 when the product
is absent, matching `sp.get("price", 0)`). -/
def storedPrice (store : List StoreDoc) (pid : String) : ℚ :=
  match lookupProduct store pid with
  | some sp => sp.price
  | none => 0

/-- Effective unit price as the code computes it: the caller-supplied
`unit_amount` when present and nonzero, else the stored price. -/
def effectiveUnitPrice (store : List StoreDoc) (it : CheckoutItem) : ℚ :=
  match it.unit_amount with
  | some u => if u = 0 then storedPrice store it.product_id else u
  | none => storedPrice store it.product_id

/-- Sum over items of effective unit price times quantity. -/
def checkoutTotal (store : List StoreDoc) (items : List CheckoutItem) : ℚ :=
  (items.map (fun it => effectiveUnitPrice store it * (it.quantity : ℚ))).sum

/-- Effective unit price as claim C1 states it: the caller-supplied
`unit_amount` whenever that field is present, including when it is 0. -/
def claimEffectiveUnitPrice (store : List StoreDoc) (it : CheckoutItem) : ℚ :=
  match it.unit_amount with
  | some u => u
  | none => storedPrice store it.product_id

/-- Claim C1's total: sum of claimed effective price times quantity. -/
def claimCheckoutTotal (store : List StoreDoc)
    (items : List CheckoutItem) : ℚ :=
  (items.map (fun it => claimEffectiveUnitPrice store it * (it.quantity : ℚ))).sum

/-- Example upstream variants: one default-marked (price 5) and one
non-default (price 8). -/
def exVariantsC4 : List RawVariant :=
  [ { is_default := true, id := some 1, price := some 5 },
    { is_default := false, id := some 2, price := some 8 } ]

/-- Example raw product with the variants above. -/
def exProductC4 : RawProduct :=
  { id := some (PyVal.int 7), variants := some exVariantsC4 }

/-- The document sync builds from `exProductC4`. -/
def exDocC4 : StoreDoc :=
  { id := PyVal.int 7, title := "Untitled", description := none, images := [],
    tags := [], categories := [], variants := exVariantsC4,
    default_variant_id := some 1, price := 8, currency := "USD",
    available := true }

/-- Example raw product with a minor-unit price (12.5) and a decimal price. -/
def exProductC3 : RawProduct :=
  { id := some (PyVal.int 3),
    variants := some [ { price := some (25/2) }, { price := some 4 } ] }

/-- The document sync builds from `exProductC3`. -/
def exDocC3 : StoreDoc :=
  { id := PyVal.int 3, title := "Untitled", description := none, images := [],
    tags := [], categories := [],
    variants := [ { price := some (25/2) }, { price := some 4 } ],
    default_variant_id := none, price := 4, currency := "USD",
    available := true }

/-- Example stored catalog with one product priced 5. -/
def exStoreC1 : List StoreDoc :=
  [ { id := PyVal.str "p1", title := "Tee", description := none, images := [],
      tags := [], categories := [], variants := [], default_variant_id := none,
      price := 5, currency := "USD", available := true } ]

/-- Checkout request overriding the unit price with 0. -/
def exPayloadC1 : CheckoutSessionIn :=
  { items := [ { product_id := "p1", unit_amount := some 0 } ] }

/-- Checkout request with a nonzero override and a no-override item. -/
def exPayloadC1w : CheckoutSessionIn :=
  { items := [ { product_id := "p1", quantity := 2, unit_amount := some 3 },
               { product_id := "p1" } ] }

/-- Checkout request naming a product id that is not stored. -/
def exPayloadC5 : CheckoutSessionIn :=
  { items := [ { product_id := "ghost" } ] }

/-- Example upstream product list for the sync idempotence witness. -/
def exProductsC6 : List RawProduct :=
  [ { id := some (PyVal.int 1), variants := some [ { price := some 20 } ] } ]

/-- Raw record with neither `id` nor `_id`. -/
def exProductC7 : RawProduct := {}

/-- Raw record whose `id` and `_id` are present but falsy. -/
def exProductC10 : RawProduct :=
  { id := some (PyVal.str ""), _id := some (PyVal.int 0) }

/-- Stored order awaiting its webhook. -/
def exOrderC2 : OrderDoc :=
  { user_id := none, items := [], amount_total := 0, currency := "USD",
    status := "created", stripe_session_id := some "cs_1" }

/-- Completed-checkout event matching `exOrderC2`. -/
def exEventC2 : StripeEvent :=
  { id := "evt_1", type := "checkout.session.completed",
    dataObjectId := some "cs_1" }

/-- An event of an unhandled type. -/
def exEventC8 : StripeEvent :=
  { id := "evt_2", type := "charge.refunded", dataObjectId := none }

lemma normContribution_eq (q : ℚ) :
    normContribution q = if 10 < q then q / 100 else q := by
  unfold normContribution
  by_cases h : 10 < q
  · have hq : q ≠ 0 := ne_of_gt (lt_trans (by norm_num) h)
    simp [h, hq]
  · simp [h]

lemma foldl_variantStep_snd (vs : List RawVariant) (st : Option ℤ × ℚ) :
    (vs.foldl variantStep st).2 = vs.foldl priceStep st.2 := by
  induction vs generalizing st with
  | nil => rfl
  | cons v vs ih =>
    simp only [List.foldl_cons, ih]
    rfl

lemma preRoundPrice_eq (vs : List RawVariant) :
    preRoundPrice vs = vs.foldl priceStep 0 := by
  unfold preRoundPrice
  rw [foldl_variantStep_snd]
  by_cases h : vs.foldl priceStep 0 = 0 <;> simp [h]

lemma foldl_priceStep_spec (vs : List RawVariant) (a : ℚ) :
    vs.foldl priceStep a = vs.foldl
      (fun acc v => match v.price with
        | some q => max acc (if 10 < q then q / 100 else q)
        | none => acc) a := by
  induction vs generalizing a with
  | nil => rfl
  | cons v vs ih =>
    simp only [List.foldl_cons, ih]
    congr 1
    unfold priceStep
    cases hv : v.price <;> simp [normContribution_eq]

lemma lookupById_upsert (store : List StoreDoc) (d : StoreDoc) (k : PyVal) :
    lookupById (upsert store d) k =
      if k = d.id then some d else lookupById store k := by
  induction store with
  | nil =>
    by_cases h : k = d.id
    · simp [upsert, lookupById, h]
    · have h' : ¬ d.id = k := fun hh => h hh.symm
      simp [upsert, lookupById, h, h']
  | cons e rest ih =>
    by_cases he : e.id = d.id
    · by_cases hk : k = d.id
      · simp [upsert, lookupById, he, hk]
      · have hek : ¬ e.id = k := fun hh => hk (hh.symm.trans he)
        have hdk : ¬ d.id = k := fun hh => hk hh.symm
        simp [upsert, lookupById, he, hk, hek, hdk]
    · by_cases hek : e.id = k
      · have hk : ¬ k = d.id := fun hh => he (hek.trans hh)
        simp [upsert, lookupById, he, hk, hek]
      · simp [upsert, lookupById, he, hek, ih]

lemma upsert_absorb (store : List StoreDoc) (d₁ d₂ : StoreDoc)
    (h : d₁.id = d₂.id) : upsert (upsert store d₁) d₂ = upsert store d₂ := by
  induction store with
  | nil => simp [upsert, h]
  | cons e rest ih =>
    by_cases he : e.id = d₁.id
    · simp [upsert, he, h, he.trans h]
    · have he₂ : ¬ e.id = d₂.id := fun hh => he (hh.trans h.symm)
      simp [upsert, he, he₂, ih]

lemma upsert_comm (store : List StoreDoc) (d₁ d₂ : StoreDoc)
    (hne : d₁.id ≠ d₂.id) (hmem : (lookupById store d₁.id).isSome) :
    upsert (upsert store d₁) d₂ = upsert (upsert store d₂) d₁ := by
  induction store with
  | nil => simp [lookupById] at hmem
  | cons e rest ih =>
    by_cases he : e.id = d₁.id
    · have he₂ : ¬ e.id = d₂.id := fun hh => hne (he.symm.trans hh)
      have hd : ¬ d₁.id = d₂.id := hne
      have hd' : ¬ d₂.id = d₁.id := fun hh => hne hh.symm
      simp [upsert, he, he₂, hd, hd']
    · simp only [lookupById, if_neg he] at hmem
      by_cases he₂ : e.id = d₂.id
      · have hd' : ¬ d₂.id = d₁.id := fun hh => hne hh.symm
        simp [upsert, he, he₂, hd']
      · simp [upsert, he, he₂, ih hmem]

lemma upsert_self (store : List StoreDoc) (d : StoreDoc)
    (h : lookupById store d.id = some d) : upsert store d = store := by
  induction store with
  | nil => simp [lookupById] at h
  | cons e rest ih =>
    by_cases he : e.id = d.id
    · simp only [lookupById, if_pos he, Option.some.injEq] at h
      simp [upsert, he, h]
    · simp only [lookupById, if_neg he] at h
      simp [upsert, he, ih h]

lemma lookupById_foldl_upsert_of_not_mem (l : List StoreDoc)
    (store : List StoreDoc) (k : PyVal) (h : ∀ d ∈ l, d.id ≠ k) :
    lookupById (l.foldl upsert store) k = lookupById store k := by
  induction l generalizing store with
  | nil => rfl
  | cons d l ih =>
    simp only [List.foldl_cons]
    rw [ih _ (fun e he => h e (List.mem_cons_of_mem _ he))]
    rw [lookupById_upsert]
    exact if_neg (fun hh => h d (List.mem_cons_self _ _) hh.symm)

lemma lookupById_foldl_upsert_isSome (l : List StoreDoc)
    (store : List StoreDoc) (k : PyVal)
    (h : (lookupById store k).isSome) :
    (lookupById (l.foldl upsert store) k).isSome := by
  induction l generalizing store with
  | nil => exact h
  | cons d l ih =>
    simp only [List.foldl_cons]
    refine ih _ ?_
    rw [lookupById_upsert]
    by_cases hk : k = d.id <;> simp [hk, h]

lemma foldl_upsert_replay (l : List StoreDoc) (store : List StoreDoc)
    (d : StoreDoc) (h : (lookupById store d.id).isSome) :
    l.foldl upsert (upsert store d) =
      if l.any (fun e => decide (e.id = d.id)) then l.foldl upsert store
      else upsert (l.foldl upsert store) d := by
  induction l generalizing store with
  | nil => simp
  | cons e l ih =>
    by_cases he : e.id = d.id
    · have habs : upsert (upsert store d) e = upsert store e :=
        upsert_absorb _ _ _ he.symm
      have hc : ((e :: l).any (fun x => decide (x.id = d.id))) = true := by
        simp [he]
      simp only [List.foldl_cons, habs, hc, if_pos]
    · have hmem : (lookupById (upsert store e) d.id).isSome := by
        rw [lookupById_upsert]
        by_cases hk : d.id = e.id
        · simp [hk]
        · simp [hk, h]
      have hc : ((e :: l).any (fun x => decide (x.id = d.id))) =
          (l.any (fun x => decide (x.id = d.id))) := by
        simp [he]
      simp only [List.foldl_cons, hc]
      rw [upsert_comm _ _ _ (fun hh => he hh.symm) h]
      exact ih _ hmem

lemma foldl_upsert_idem (l : List StoreDoc) (store : List StoreDoc) :
    l.foldl upsert (l.foldl upsert store) = l.foldl upsert store := by
  induction l generalizing store with
  | nil => rfl
  | cons d l ih =>
    simp only [List.foldl_cons]
    have h₁ : (lookupById (upsert store d) d.id).isSome := by
      rw [lookupById_upsert]; simp
    have ht : (lookupById (l.foldl upsert (upsert store d)) d.id).isSome :=
      lookupById_foldl_upsert_isSome _ _ _ h₁
    rw [foldl_upsert_replay _ _ _ ht]
    by_cases hany : l.any (fun e => decide (e.id = d.id)) = true
    · rw [if_pos hany]
      exact ih _
    · rw [if_neg hany, ih _]
      have hno : ∀ e ∈ l, e.id ≠ d.id := by
        intro e he hh
        exact hany (List.any_eq_true.mpr ⟨e, he, by simp [hh]⟩)
      have : lookupById (l.foldl upsert (upsert store d)) d.id = some d := by
        rw [lookupById_foldl_upsert_of_not_mem _ _ _ hno, lookupById_upsert]
        simp
      exact upsert_self _ _ this

lemma foldl_syncStep_store (ps : List RawProduct) (acc : SyncResult) :
    (ps.foldl syncStep acc).store =
      (ps.filterMap normalizeRecord).foldl upsert acc.store := by
  induction ps generalizing acc with
  | nil => rfl
  | cons p ps ih =>
    cases hp : normalizeRecord p with
    | none => simp [List.foldl_cons, List.filterMap_cons, hp, syncStep, ih]
    | some doc => simp [List.foldl_cons, List.filterMap_cons, hp, syncStep, ih]

lemma syncStore_foldl (store : List StoreDoc) (ps : List RawProduct) :
    syncStore store ps = (ps.filterMap normalizeRecord).foldl upsert store :=
  foldl_syncStep_store ps ⟨0, [], store⟩

lemma storeKeys_upsert (store : List StoreDoc) (d : StoreDoc) :
    storeKeys (upsert store d) =
      if (lookupById store d.id).isSome then storeKeys store
      else storeKeys store ++ [d.id] := by
  induction store with
  | nil => simp [upsert, storeKeys, lookupById]
  | cons e rest ih =>
    by_cases he : e.id = d.id
    · simp [upsert, storeKeys, lookupById, he]
    · simp only [upsert, if_neg he, storeKeys, List.map_cons, lookupById]
      by_cases hm : (lookupById rest d.id).isSome
      · simp only [storeKeys] at ih
        simp [hm, ih]
      · simp only [storeKeys] at ih
        simp [hm, ih]

lemma lookupById_eq_none_iff (store : List StoreDoc) (k : PyVal) :
    lookupById store k = none ↔ k ∉ storeKeys store := by
  induction store with
  | nil => simp [lookupById, storeKeys]
  | cons e rest ih =>
    by_cases he : e.id = k
    · simp [lookupById, storeKeys, he, ih]
    · have he' : ¬ k = e.id := fun hh => he hh.symm
      simp [lookupById, storeKeys, he, he', ih]

lemma nodup_storeKeys_upsert (store : List StoreDoc) (d : StoreDoc)
    (h : (storeKeys store).Nodup) : (storeKeys (upsert store d)).Nodup := by
  rw [storeKeys_upsert]
  cases hm : (lookupById store d.id).isSome with
  | true => rw [if_pos rfl]; exact h
  | false =>
    have hnone : lookupById store d.id = none := by
      cases hh : lookupById store d.id with
      | none => rfl
      | some v => rw [hh] at hm; simp at hm
    have hnotin : d.id ∉ storeKeys store :=
      (lookupById_eq_none_iff _ _).mp hnone
    rw [if_neg Bool.false_ne_true]
    rw [List.nodup_append]
    exact ⟨h, List.nodup_singleton _,
      fun a ha hb => hnotin ((List.mem_singleton.mp hb) ▸ ha)⟩

lemma nodup_storeKeys_foldl_upsert (l : List StoreDoc)
    (store : List StoreDoc) (h : (storeKeys store).Nodup) :
    (storeKeys (l.foldl upsert store)).Nodup := by
  induction l generalizing store with
  | nil => exact h
  | cons d l ih => exact ih _ (nodup_storeKeys_upsert _ _ h)

lemma syncStep_skip (acc : SyncResult) (p : RawProduct)
    (h : resolveId p = none) : syncStep acc p = acc := by
  simp [syncStep, normalizeRecord, h]

lemma sync_skips_unresolved (store : List StoreDoc)
    (ps₁ ps₂ : List RawProduct) (p : RawProduct) (h : resolveId p = none) :
    sync_printify_products store (ps₁ ++ p :: ps₂) =
      sync_printify_products store (ps₁ ++ ps₂) := by
  unfold sync_printify_products
  rw [List.foldl_append, List.foldl_append, List.foldl_cons,
    syncStep_skip _ _ h]

lemma checkoutLoop_ok (store : List StoreDoc) (c : String)
    (items : List CheckoutItem)
    (h : ∀ it ∈ items, (lookupProduct store it.product_id).isSome) :
    ∃ lis, checkoutLoop store c items = .ok (lis, checkoutTotal store items) := by
  induction items with
  | nil => exact ⟨[], rfl⟩
  | cons it rest ih =>
    have h1 := h it (List.mem_cons_self _ _)
    cases hl : lookupProduct store it.product_id with
    | none => rw [hl] at h1; simp at h1
    | some sp =>
      obtain ⟨lis, hrest⟩ := ih (fun x hx => h x (List.mem_cons_of_mem _ hx))
      have hp : (match it.unit_amount with
          | some u => if u = 0 then sp.price else u
          | none => sp.price) = effectiveUnitPrice store it := by
        unfold effectiveUnitPrice storedPrice
        rw [hl]
      have key : checkoutLoop store c (it :: rest) =
          .ok ({ name := sp.title
                 images := sp.images.take 1
                 currency := c
                 unit_amount := intTrunc (effectiveUnitPrice store it * 100)
                 quantity := it.quantity } :: lis,
               checkoutTotal store (it :: rest)) := by
        simp only [checkoutLoop, hl, hrest]
        rw [hp]
        simp [checkoutTotal]
      exact ⟨_, key⟩

lemma checkoutLoop_404 (store : List StoreDoc) (c : String)
    (items : List CheckoutItem)
    (h : ∃ it ∈ items, lookupProduct store it.product_id = none) :
    ∃ e, checkoutLoop store c items = .error e ∧ e.status = 404 := by
  induction items with
  | nil => simp at h
  | cons it rest ih =>
    cases hl : lookupProduct store it.product_id with
    | none =>
      exact ⟨⟨404, "Product " ++ it.product_id ++ " not found"⟩,
        by simp [checkoutLoop, hl], rfl⟩
    | some sp =>
      have hr : ∃ x ∈ rest, lookupProduct store x.product_id = none := by
        obtain ⟨x, hx, hxl⟩ := h
        rcases List.mem_cons.mp hx with rfl | hx'
        · rw [hl] at hxl; exact absurd hxl (by simp)
        · exact ⟨x, hx', hxl⟩
      obtain ⟨e, he, hs⟩ := ih hr
      refine ⟨e, ?_, hs⟩
      simp only [checkoutLoop, hl, he]

lemma find?_updateFirst (pred : OrderDoc → Bool) (f : OrderDoc → OrderDoc)
    (hf : ∀ x, pred (f x) = pred x) (l : List OrderDoc) (o : OrderDoc)
    (h : l.find? pred = some o) :
    (updateFirst pred f l).find? pred = some (f o) := by
  induction l with
  | nil => simp [List.find?] at h
  | cons x rest ih =>
    cases hx : pred x with
    | true =>
      rw [List.find?_cons_of_pos _ hx] at h
      obtain rfl := Option.some_injective _ h
      simp only [updateFirst, hx, if_pos]
      exact List.find?_cons_of_pos _ (by rw [hf, hx])
    | false =>
      have hx' : ¬ pred x = true := by simp [hx]
      rw [List.find?_cons_of_neg _ hx'] at h
      simp only [updateFirst, hx, Bool.false_eq_true, if_false]
      rw [List.find?_cons_of_neg _ hx']
      exact ih h

lemma normalizeRecord_price (p : RawProduct) (d : StoreDoc)
    (h : normalizeRecord p = some d) :
    d.price = pyRound2 (preRoundPrice d.variants) ∧
      d.price = specPriceAllVariants d.variants := by
  cases hr : resolveId p with
  | none => simp [normalizeRecord, hr] at h
  | some pid =>
    simp only [normalizeRecord, hr, Option.some.injEq] at h
    subst h
    refine ⟨rfl, ?_⟩
    dsimp only
    rw [preRoundPrice_eq, specPriceAllVariants, foldl_priceStep_spec]

/-- Claim C1 as stated is false: with a stored price of 5 and a
caller-supplied `unit_amount` of 0, the persisted `amount_total` is 5 (the
zero override is falsy and falls back to the stored price), not the 0 the
claim's effective-price rule demands. -/
theorem claim_C1_counterexample :
    (create_checkout_session true exStoreC1 exPayloadC1 "cs_1" "url").toOption.map
        (fun r => r.order.amount_total) = some 5 ∧
    pyRound2 (claimCheckoutTotal exStoreC1 exPayloadC1.items) = 0 ∧
    (create_checkout_session true exStoreC1 exPayloadC1 "cs_1" "url").toOption.map
        (fun r => r.order.amount_total) ≠
      some (pyRound2 (claimCheckoutTotal exStoreC1 exPayloadC1.items)) := by
  have h1 : (create_checkout_session true exStoreC1 exPayloadC1 "cs_1" "url").toOption.map
      (fun r => r.order.amount_total) = some 5 := by
    norm_num [create_checkout_session, checkoutLoop, lookupProduct, exStoreC1,
      exPayloadC1, pyRound2, roundHalfEven, List.find?, Except.toOption]
  have h2 : pyRound2 (claimCheckoutTotal exStoreC1 exPayloadC1.items) = 0 := by
    norm_num [claimCheckoutTotal, claimEffectiveUnitPrice, storedPrice,
      lookupProduct, exStoreC1, exPayloadC1, pyRound2, roundHalfEven,
      List.find?]
  exact ⟨h1, h2, by rw [h1, h2]; simp⟩

/-- Claim C1 (amended): for every checkout request whose items all resolve
to stored products, the persisted order's `amount_total` equals the sum over
items of effective unit price times quantity rounded to 2 decimals, where
the effective unit price is the caller-supplied `unit_amount` whenever that
field is present and nonzero, and otherwise (absent or zero) the stored
product's price. -/
theorem claim_C1_amended_amount_total (store : List StoreDoc)
    (payload : CheckoutSessionIn) (sid surl : String)
    (h : ∀ it ∈ payload.items, (lookupProduct store it.product_id).isSome) :
    ∃ r, create_checkout_session true store payload sid surl = .ok r ∧
      r.order.amount_total = pyRound2 (checkoutTotal store payload.items) := by
  obtain ⟨lis, hl⟩ := checkoutLoop_ok store payload.currency payload.items h
  refine ⟨{ line_items := lis
            order := { user_id := payload.user_id
                       items := payload.items
                       amount_total := pyRound2 (checkoutTotal store payload.items)
                       currency := payload.currency.toUpper
                       status := "created"
                       stripe_session_id := some sid
                       printify_order_id := none }
            id := sid
            url := surl }, ?_, rfl⟩
  simp [create_checkout_session, hl]

/-- Witness for the amended C1 at a concrete store and payload. -/
theorem claim_C1_amended_amount_total_witness :
    (∀ it ∈ exPayloadC1w.items, (lookupProduct exStoreC1 it.product_id).isSome) ∧
    (∃ r, create_checkout_session true exStoreC1 exPayloadC1w "cs_2" "url" = .ok r ∧
      r.order.amount_total = pyRound2 (checkoutTotal exStoreC1 exPayloadC1w.items)) :=
  ⟨by decide, claim_C1_amended_amount_total exStoreC1 exPayloadC1w "cs_2" "url" (by decide)⟩

/-- Claim C2: a `checkout.session.completed` event matching a stored order
whose fulfillment placement raises leaves that order with status `failed`
and the endpoint still answers `received: true`. -/
theorem claim_C2_failed_fulfillment (shopIdSet : Bool) (store : List StoreDoc)
    (httpResp : ℕ × Option String) (orders : List OrderDoc)
    (event : StripeEvent) (o : OrderDoc)
    (h1 : event.type = "checkout.session.completed")
    (h2 : orders.find? (sessionPred event.dataObjectId) = some o)
    (h3 : create_printify_order_from_order shopIdSet store httpResp o = .error ()) :
    (stripe_webhook shopIdSet store httpResp orders event).2 = { received := true } ∧
    (stripe_webhook shopIdSet store httpResp orders event).1.find?
        (sessionPred event.dataObjectId) = some { o with status := "failed" } := by
  have hf : ∀ x, sessionPred event.dataObjectId { x with status := "failed" } =
      sessionPred event.dataObjectId x := fun x => rfl
  have hw : stripe_webhook shopIdSet store httpResp orders event =
      (updateFirst (sessionPred event.dataObjectId)
        (fun o => { o with status := "failed" }) orders, { received := true }) := by
    simp [stripe_webhook, h1, h2, h3]
  rw [hw]
  exact ⟨rfl, find?_updateFirst _ _ hf _ _ h2⟩

/-- Witness for C2: shop id unset makes the placement call raise. -/
theorem claim_C2_failed_fulfillment_witness :
    exEventC2.type = "checkout.session.completed" ∧
    [exOrderC2].find? (sessionPred exEventC2.dataObjectId) = some exOrderC2 ∧
    create_printify_order_from_order false [] (500, none) exOrderC2 = .error () ∧
    ((stripe_webhook false [] (500, none) [exOrderC2] exEventC2).2 = { received := true } ∧
     (stripe_webhook false [] (500, none) [exOrderC2] exEventC2).1.find?
        (sessionPred exEventC2.dataObjectId) = some { exOrderC2 with status := "failed" }) :=
  ⟨rfl, rfl, rfl,
   claim_C2_failed_fulfillment false [] (500, none) [exOrderC2] exEventC2 exOrderC2 rfl rfl rfl⟩

/-- Claim C3: the normalized contribution of a numeric variant price `v` is
`v/100` when `v > 10`, else `v`, and the stored price is the accumulated
value rounded to 2 decimals. -/
theorem claim_C3_price_normalization :
    (∀ q : ℚ, normContribution q = if 10 < q then q / 100 else q) ∧
    (∀ (p : RawProduct) (d : StoreDoc), normalizeRecord p = some d →
      d.price = pyRound2 (preRoundPrice d.variants)) :=
  ⟨normContribution_eq, fun p d h => (normalizeRecord_price p d h).1⟩

/-- Witness for C3 on a record with prices 12.5 and 4. -/
theorem claim_C3_price_normalization_witness :
    normContribution (25/2) = (if (10:ℚ) < 25/2 then (25/2) / 100 else 25/2) ∧
    normalizeRecord exProductC3 = some exDocC3 ∧
    exDocC3.price = pyRound2 (preRoundPrice exDocC3.variants) := by
  have h : normalizeRecord exProductC3 = some exDocC3 := by
    norm_num [normalizeRecord, exProductC3, exDocC3, resolveId, pyOrVal,
      pyTruthy, pyOrStr, pyOrList, imageUrl, variantStep, preRoundPrice,
      normContribution, pyOrInt, pyRound2, roundHalfEven]
  exact ⟨claim_C3_price_normalization.1 (25/2), h,
    claim_C3_price_normalization.2 exProductC3 exDocC3 h⟩

/-- Claim C4 as stated is false: with a default-marked variant priced 5 and
a non-default variant priced 8, the code stores 8 (the maximum over all
variants), while the claim's default-only rule yields 5. -/
theorem claim_C4_counterexample :
    (normalizeRecord exProductC4).map (fun d => d.price) = some 8 ∧
    specPriceDefaultOnly exVariantsC4 = 5 ∧
    (normalizeRecord exProductC4).map (fun d => d.price) ≠
      some (specPriceDefaultOnly exVariantsC4) := by
  have h1 : (normalizeRecord exProductC4).map (fun d => d.price) = some 8 := by
    norm_num [normalizeRecord, exProductC4, exVariantsC4, resolveId, pyOrVal,
      pyTruthy, pyOrStr, pyOrList, imageUrl, variantStep, preRoundPrice,
      normContribution, pyOrInt, pyRound2, roundHalfEven]
  have h2 : specPriceDefaultOnly exVariantsC4 = 5 := by
    norm_num [specPriceDefaultOnly, exVariantsC4, List.any, List.filter,
      pyRound2, roundHalfEven]
  exact ⟨h1, h2, by rw [h1, h2]; simp⟩

/-- Claim C4 (amended): the stored price is the maximum of the normalized
numeric variant prices over all variants, regardless of default marking
(accumulated from 0), rounded to 2 decimals. -/
theorem claim_C4_amended_price_all_variants (p : RawProduct) (d : StoreDoc)
    (h : normalizeRecord p = some d) :
    d.price = specPriceAllVariants d.variants :=
  (normalizeRecord_price p d h).2

/-- Witness for the amended C4. -/
theorem claim_C4_amended_price_all_variants_witness :
    normalizeRecord exProductC4 = some exDocC4 ∧
    exDocC4.price = specPriceAllVariants exDocC4.variants := by
  have h : normalizeRecord exProductC4 = some exDocC4 := by
    norm_num [normalizeRecord, exProductC4, exDocC4, exVariantsC4, resolveId,
      pyOrVal, pyTruthy, pyOrStr, pyOrList, imageUrl, variantStep,
      preRoundPrice, normContribution, pyOrInt, pyRound2, roundHalfEven]
  exact ⟨h, claim_C4_amended_price_all_variants exProductC4 exDocC4 h⟩

/-- Claim C5: a checkout request containing an item whose product id is not
stored fails with a 404 error and persists no order. -/
theorem claim_C5_unknown_product (store : List StoreDoc)
    (orders : List OrderDoc) (payload : CheckoutSessionIn) (sid surl : String)
    (h : ∃ it ∈ payload.items, lookupProduct store it.product_id = none) :
    (∃ e, create_checkout_session true store payload sid surl = .error e ∧
      e.status = 404) ∧
    ordersAfterCheckout orders
      (create_checkout_session true store payload sid surl) = orders := by
  obtain ⟨e, he, hs⟩ := checkoutLoop_404 store payload.currency payload.items h
  have hr : create_checkout_session true store payload sid surl = .error e := by
    simp [create_checkout_session, he]
  exact ⟨⟨e, hr, hs⟩, by simp [ordersAfterCheckout, hr]⟩

/-- Witness for C5 at an empty store. -/
theorem claim_C5_unknown_product_witness :
    (∃ it ∈ exPayloadC5.items, lookupProduct [] it.product_id = none) ∧
    ((∃ e, create_checkout_session true [] exPayloadC5 "cs" "u" = .error e ∧
        e.status = 404) ∧
     ordersAfterCheckout []
       (create_checkout_session true [] exPayloadC5 "cs" "u") = []) :=
  ⟨⟨{ product_id := "ghost" }, List.mem_cons_self _ _, rfl⟩,
   claim_C5_unknown_product [] [] exPayloadC5 "cs" "u"
     ⟨{ product_id := "ghost" }, List.mem_cons_self _ _, rfl⟩⟩

/-- Claim C6: starting from a store with distinct product ids, running sync
twice with the same upstream list yields the same stored collection as
running it once, and the result has no duplicate product ids. -/
theorem claim_C6_sync_idempotent (s : List StoreDoc) (ps : List RawProduct)
    (h : (storeKeys s).Nodup) :
    syncStore (syncStore s ps) ps = syncStore s ps ∧
    (storeKeys (syncStore s ps)).Nodup := by
  constructor
  · rw [syncStore_foldl, syncStore_foldl]
    exact foldl_upsert_idem _ _
  · rw [syncStore_foldl]
    exact nodup_storeKeys_foldl_upsert _ _ h

/-- Witness for C6 on an empty store and a one-record upstream list. -/
theorem claim_C6_sync_idempotent_witness :
    (storeKeys ([] : List StoreDoc)).Nodup ∧
    (syncStore (syncStore [] exProductsC6) exProductsC6 =
        syncStore [] exProductsC6 ∧
     (storeKeys (syncStore [] exProductsC6)).Nodup) :=
  ⟨by simp [storeKeys], claim_C6_sync_idempotent [] exProductsC6 (by simp [storeKeys])⟩

/-- Claim C7: a raw record with no resolvable id is skipped: the sync result
(count, returned products, and store) is as if the record were absent. -/
theorem claim_C7_skip_unresolvable_id (store : List StoreDoc)
    (ps₁ ps₂ : List RawProduct) (p : RawProduct) (h : resolveId p = none) :
    sync_printify_products store (ps₁ ++ p :: ps₂) =
      sync_printify_products store (ps₁ ++ ps₂) :=
  sync_skips_unresolved store ps₁ ps₂ p h

/-- Witness for C7 on the empty record. -/
theorem claim_C7_skip_unresolvable_id_witness :
    resolveId exProductC7 = none ∧
    sync_printify_products [] ([] ++ exProductC7 :: []) =
      sync_printify_products [] ([] ++ []) :=
  ⟨rfl, claim_C7_skip_unresolvable_id [] [] [] exProductC7 rfl⟩

/-- Claim C8: a completed-checkout event with no matching order, or an event
of any other type, is acknowledged with `received: true` and mutates no
order. -/
theorem claim_C8_no_match_no_mutation (shopIdSet : Bool)
    (store : List StoreDoc) (httpResp : ℕ × Option String)
    (orders : List OrderDoc) (event : StripeEvent)
    (h : event.type ≠ "checkout.session.completed" ∨
      orders.find? (sessionPred event.dataObjectId) = none) :
    stripe_webhook shopIdSet store httpResp orders event =
      (orders, { received := true }) := by
  rcases h with h | h
  · simp [stripe_webhook, h]
  · by_cases ht : event.type = "checkout.session.completed"
    · simp [stripe_webhook, ht, h]
    · simp [stripe_webhook, ht]

/-- Witness for C8 on an unhandled event type over an empty order store. -/
theorem claim_C8_no_match_no_mutation_witness :
    (exEventC8.type ≠ "checkout.session.completed" ∨
      ([] : List OrderDoc).find? (sessionPred exEventC8.dataObjectId) = none) ∧
    stripe_webhook true [] (200, none) [] exEventC8 =
      ([], { received := true }) :=
  ⟨Or.inr rfl,
   claim_C8_no_match_no_mutation true [] (200, none) [] exEventC8 (Or.inr rfl)⟩

/-- Claim C9: every product the catalog query returns is available, and at
most 100 products are returned. -/
theorem claim_C9_catalog_available_capped (store : List StoreDoc)
    (category q : Option String) :
    ((get_catalog store category q).all (fun d => d.available)) = true ∧
    (get_catalog store category q).length ≤ 100 := by
  constructor
  · rw [List.all_eq_true]
    intro d hd
    simp only [get_catalog, get_documents] at hd
    have hd' := List.take_subset _ _ hd
    have hm := (List.mem_filter.mp hd').2
    simp only [matchesFilter, Bool.and_eq_true] at hm
    exact hm.1.1
  · simp only [get_catalog, get_documents, List.length_take]
    exact min_le_left _ _

/-- Claim C10: a record whose `id` and `_id` are both present but falsy is
treated exactly like a record missing both: skipped, not stored, not
counted. -/
theorem claim_C10_falsy_ids_skipped (store : List StoreDoc)
    (ps₁ ps₂ : List RawProduct) (p : RawProduct) (a b : PyVal)
    (hid : p.id = some a) (hid2 : p._id = some b)
    (ha : pyTruthy a = false) (hb : pyTruthy b = false) :
    resolveId p = none ∧
    sync_printify_products store (ps₁ ++ p :: ps₂) =
      sync_printify_products store (ps₁ ++ ps₂) := by
  have hr : resolveId p = none := by
    simp [resolveId, pyOrVal, hid, hid2, ha, hb]
  exact ⟨hr, sync_skips_unresolved store ps₁ ps₂ p hr⟩

/-- Witness for C10 with `id = ""` and `_id = 0`. -/
theorem claim_C10_falsy_ids_skipped_witness :
    exProductC10.id = some (PyVal.str "") ∧
    exProductC10._id = some (PyVal.int 0) ∧
    pyTruthy (PyVal.str "") = false ∧
    pyTruthy (PyVal.int 0) = false ∧
    (resolveId exProductC10 = none ∧
     sync_printify_products [] ([] ++ exProductC10 :: []) =
       sync_printify_products [] ([] ++ [])) :=
  ⟨rfl, rfl, by decide, by decide,
   claim_C10_falsy_ids_skipped [] [] [] exProductC10 (PyVal.str "")
     (PyVal.int 0) rfl rfl (by decide) (by decide)⟩
